import Mathlib

/-!
Verification development for the `gogpt` command-line utility (Go).

The program accepts a question via CLI flags, loads an API key from a JSON
config file, opens a bolt key-value store and ensures one bucket exists,
performs a single HTTP POST to the OpenAI chat-completions endpoint, stores
the question/answer pair in the bucket keyed by the question text, and
prints the answer.

This file shallowly embeds `src/main.go`:
  * pure data: the request/response/record structs, verbatim;
  * `strings.TrimSpace` and `encoding/json` marshalling of the `QA` struct
    are modelled executably;
  * the network and the `encoding/json.Unmarshal` decoding of the response
    body are environment parameters (a function from request to response,
    and a decoder function), since their behaviour is external to the repo;
  * the bolt store is modelled as an association-list database
    (bucket name to bucket, bucket = key to value); `Put` overwrites the
    entry with the same key, which is bolt's documented behaviour, and
    returns bolt's deterministic errors for a blank key and for
    oversized keys/values; `Put` on a nil bucket panics, which is
    modelled;
  * Go's `log.Fatalf` / `os.Exit` become an explicit `Outcome`;
    an out-of-range index becomes the `panicked` outcome.
-/

namespace GoGpt

/-- Constants from `src/main.go` (the `const` block). -/
def bucketName : String := "questions_and_answers"

/-- The fixed completion endpoint URL (`openAIURL` in `src/main.go`). -/
def openAIURL : String := "https://api.openai.com/v1/chat/completions"

/-- The fixed model identifier (`modelID` in `src/main.go`). -/
def modelID : String := "gpt-3.5-turbo"

/-- The fixed sampling temperature (`defaultTemperature = 0.7` in
`src/main.go`); the Go float64 literal is modelled as the rational it
denotes. -/
def defaultTemperature : ℚ := 7 / 10

/-- The `QA` struct: the single stored record. -/
structure QA where
  question : String
  answer : String
  deriving Repr, DecidableEq

/-- The `Message` struct of the chat request/response. -/
structure Message where
  role : String
  content : String
  deriving Repr, DecidableEq

/-- The `ChatCompletionRequest` struct. -/
structure ChatCompletionRequest where
  model : String
  messages : List Message
  temperature : ℚ
  deriving Repr, DecidableEq

/-- The `Choice` struct of the response. -/
structure Choice where
  message : Message
  finishReason : String
  deriving Repr, DecidableEq

/-- The `ChatCompletionResponse` struct. -/
structure ChatCompletionResponse where
  id : String
  object : String
  model : String
  choices : List Choice
  deriving Repr, DecidableEq

/-- The `Config` struct read from `config.json` (field `api_key`). -/
structure Config where
  apiKey : String
  deriving Repr, DecidableEq

/-- Result of a Go function call that can return a value, return an error,
or panic at runtime. -/
inductive GoResult (α : Type) where
  | ok : α → GoResult α
  | err : String → GoResult α
  | panicked : String → GoResult α
  deriving Repr, DecidableEq

/-! ### strings.TrimSpace -/

/-- Go's `unicode.IsSpace`: the Latin-1 white space characters plus the
Unicode `White_Space` code points above Latin-1. -/
def goIsSpace (c : Char) : Bool :=
  c = ' ' || c = '\t' || c = '\n' || c = '\x0b' || c = '\x0c' || c = '\r' ||
  c.toNat = 0x85 || c.toNat = 0xa0 ||
  c.toNat = 0x1680 || (0x2000 ≤ c.toNat && c.toNat ≤ 0x200a) ||
  c.toNat = 0x2028 || c.toNat = 0x2029 || c.toNat = 0x202f ||
  c.toNat = 0x205f || c.toNat = 0x3000

/-- `strings.TrimSpace`: drop leading and trailing white space. -/
def trimSpace (s : String) : String :=
  ⟨((s.data.dropWhile goIsSpace).reverse.dropWhile goIsSpace).reverse⟩

/-! ### encoding/json marshalling of the QA record

`json.Marshal` on the `QA` struct emits the two fields in declaration
order with their tag names; strings are quoted with Go's JSON escaping
(quotes, backslash, control characters, and by default the HTML-unsafe
characters and the line/paragraph separators). -/

/-- Lowercase hex digit, as used by `encoding/json`. -/
def hexDigit (n : Nat) : Char :=
  if n < 10 then Char.ofNat ('0'.toNat + n) else Char.ofNat ('a'.toNat + (n - 10))

/-- Escape one character the way `encoding/json` escapes string contents. -/
def goEscapeChar (c : Char) : String :=
  if c = '"' then "\\\""
  else if c = '\\' then "\\\\"
  else if c = '\n' then "\\n"
  else if c = '\r' then "\\r"
  else if c = '\t' then "\\t"
  else if c = '<' then "\\u003c"
  else if c = '>' then "\\u003e"
  else if c = '&' then "\\u0026"
  else if c.toNat < 0x20 then
    "\\u00" ++ String.singleton (hexDigit (c.toNat / 16)) ++
      String.singleton (hexDigit (c.toNat % 16))
  else if c.toNat = 0x2028 then "\\u2028"
  else if c.toNat = 0x2029 then "\\u2029"
  else String.singleton c

/-- Go JSON string literal for `s`. -/
def goQuote (s : String) : String :=
  "\"" ++ String.join (s.data.map goEscapeChar) ++ "\""

/-- `json.Marshal` of a `QA` value: `\x7b"question":...,"answer":...\x7d`. -/
def encodeQA (qa : QA) : String :=
  "\x7b\"question\":" ++ goQuote qa.question ++ ",\"answer\":" ++ goQuote qa.answer ++ "\x7d"

/-! ### The bolt store -/

/-- A bolt bucket: an association list from key to stored value.  A real
bucket never holds two entries with the same key; theorems that need this
take it as a hypothesis on the keys. -/
abbrev Bucket := List (String × String)

/-- A bolt database: an association list from bucket name to bucket. -/
abbrev DB := List (String × Bucket)

/-- Bucket `Put`: overwrite the entry with the same key, else append. -/
def bucketPut : Bucket → String → String → Bucket
  | [], k, v => [(k, v)]
  | (k', v') :: rest, k, v =>
      if k' = k then (k, v) :: rest else (k', v') :: bucketPut rest k v

/-- Bucket `Get`: first entry with the key, if any. -/
def bucketGet : Bucket → String → Option String
  | [], _ => none
  | (k', v') :: rest, k => if k' = k then some v' else bucketGet rest k

/-- `tx.Bucket(name)`: the named bucket, or `none` (Go: nil) if absent. -/
def dbGetBucket : DB → String → Option Bucket
  | [], _ => none
  | (n, b) :: rest, name => if n = name then some b else dbGetBucket rest name

/-- `tx.CreateBucketIfNotExists(name)`: create an empty bucket if absent. -/
def dbCreateBucketIfNotExists (db : DB) (name : String) : DB :=
  match dbGetBucket db name with
  | some _ => db
  | none => db ++ [(name, [])]

/-- Put a key/value pair into the named bucket (no-op if the bucket is
absent; callers guard on `dbGetBucket`). -/
def dbPut (db : DB) (name k v : String) : DB :=
  match db with
  | [] => []
  | (n, b) :: rest =>
      if n = name then (n, bucketPut b k v) :: rest else (n, b) :: dbPut rest name k v

/-- Read a value from the named bucket. -/
def dbGet (db : DB) (name k : String) : Option String :=
  match dbGetBucket db name with
  | none => none
  | some b => bucketGet b k

/-- bolt's maximum key size in bytes (`MaxKeySize = 32768`). -/
def maxKeySize : Nat := 32768

/-- bolt's maximum value size in bytes (`MaxValueSize = (1 << 31) - 2`). -/
def maxValueSize : Nat := 2 ^ 31 - 2

/-- The deterministic error returns of bolt's `Bucket.Put` inside a
writable transaction: a blank key (`ErrKeyRequired`), an oversized key
(`ErrKeyTooLarge`) or an oversized value (`ErrValueTooLarge`); `none`
when the pair is accepted.  Key and value are byte slices, so their
sizes are the UTF-8 byte sizes of the strings. -/
def putErr (k v : String) : Option String :=
  if k.utf8ByteSize = 0 then some "key required"
  else if k.utf8ByteSize > maxKeySize then some "key too large"
  else if v.utf8ByteSize > maxValueSize then some "value too large"
  else none

/-- `storeQA` from `src/main.go`: inside a write transaction, look up the
bucket, marshal the record, and `Put` it under the question key.
`json.Marshal` of a `QA` value cannot fail, so that error branch is dead;
`b.Put` with `b = nil` (bucket absent) dereferences a nil pointer, which
panics; `Put` returns its documented error for a blank or oversized key
or an oversized value, in which case the surrounding `db.Update`
transaction rolls back and the store is unchanged. -/
def storeQA (db : DB) (question answer : String) : GoResult DB :=
  match dbGetBucket db bucketName with
  | none => .panicked "runtime error: invalid memory address or nil pointer dereference"
  | some _ =>
      match putErr question (encodeQA { question := question, answer := answer }) with
      | some e => .err e
      | none =>
          .ok (dbPut db bucketName question
            (encodeQA { question := question, answer := answer }))

/-! ### The HTTP layer and getAnswer -/

/-- An outbound HTTP request as `getAnswer` builds it.  The body is kept as
the structured `ChatCompletionRequest`; on the wire it is the JSON
marshalling of this value. -/
structure HttpRequest where
  method : String
  url : String
  headers : List (String × String)
  body : ChatCompletionRequest
  deriving Repr, DecidableEq

/-- An HTTP response as seen by `getAnswer`: status code, status line text
(`resp.Status`), and the raw body after `ioutil.ReadAll`. -/
structure HttpResponse where
  statusCode : Nat
  status : String
  body : String
  deriving Repr, DecidableEq

/-- The network: what `client.Do` returns for a request.  `error` covers
transport failures and a failing `ReadAll` of the body. -/
abbrev Net := HttpRequest → Except String HttpResponse

/-- The behaviour of `json.Unmarshal` into a `ChatCompletionResponse`. -/
abbrev RespDecoder := String → Except String ChatCompletionResponse

/-- The chat request built at the top of `getAnswer`: fixed model, the four
messages, fixed temperature. -/
def buildChatRequest (question example_prompt example_response text_to_analyze : String) :
    ChatCompletionRequest :=
  { model := modelID
    messages :=
      [ { role := "system"
          content := "You are a helpful assistant and you give answers in a list. People generally ask about text and books." }
      , { role := "user", content := example_prompt }
      , { role := "assistant", content := example_response }
      , { role := "user"
          content := "Now, about this following text, " ++ question ++ ": " ++ text_to_analyze } ]
    temperature := defaultTemperature }

/-- The HTTP request `getAnswer` issues: POST to the fixed URL with the
Content-Type and Authorization headers. -/
def mkHttpRequest (apiKey : String) (chatReq : ChatCompletionRequest) : HttpRequest :=
  { method := "POST"
    url := openAIURL
    headers := [("Content-Type", "application/json"), ("Authorization", "Bearer " ++ apiKey)]
    body := chatReq }

/-- `getAnswer` from `src/main.go`.  Returns the Go result together with
the list of HTTP requests issued.  `json.Marshal` of the request struct and
`http.NewRequest` with the constant URL cannot fail, so those error
branches are dead; exactly one request is issued on every path.  The final
`chatResp.Choices[0]` is an unguarded index: with zero choices it panics. -/
def getAnswer (net : Net) (unmarshalResp : RespDecoder)
    (apiKey question example_prompt example_response text_to_analyze : String) :
    GoResult String × List HttpRequest :=
  let chatReq := buildChatRequest question example_prompt example_response text_to_analyze
  let req := mkHttpRequest apiKey chatReq
  match net req with
  | .error e => (.err e, [req])
  | .ok resp =>
      if resp.statusCode ≠ 200 then
        (.err ("OpenAI API request failed with status: " ++ resp.status), [req])
      else
        match unmarshalResp resp.body with
        | .error e => (.err e, [req])
        | .ok chatResp =>
            match chatResp.choices with
            | [] => (.panicked "runtime error: index out of range [0] with length 0", [req])
            | c :: _ => (.ok (trimSpace c.message.content), [req])

/-! ### The main orchestration -/

/-- The parsed CLI flags (`flag.Parse` has run).  `nflag` is `flag.NFlag()`,
the number of flags the command line actually set. -/
structure Flags where
  help : Bool
  question : String
  example_prompt : String
  example_response : String
  file_to_analyze : String
  debug : Bool
  nflag : Nat

/-- The environment `main` runs in: the flags, the outcomes of the file
system and database operations it performs, the network, and the JSON
decoding of the response body. -/
structure Env where
  flags : Flags
  /-- `getConfigDir` succeeds (home dir found, `MkdirAll` ok); on failure
  `log.Fatalf` exits the process. -/
  getConfigDirOk : Bool
  /-- `os.Stat(configFile)` does not report non-existence. -/
  configFileExists : Bool
  /-- `ioutil.ReadFile(configFile)`. -/
  readConfigFile : Except String String
  /-- `json.Unmarshal` into `Config`. -/
  unmarshalConfig : String → Except String Config
  /-- `os.Stat(*file_to_analyze)` does not report non-existence. -/
  fileToAnalyzeExists : Bool
  /-- `ioutil.ReadFile(*file_to_analyze)`. -/
  readFileToAnalyze : Except String String
  /-- `bolt.Open(dbFile, 0600, nil)`: the database state on disk, or an
  open error. -/
  openDB : Except String DB
  net : Net
  unmarshalResp : RespDecoder

/-- How the process ends: `os.Exit`/`log.Fatalf` with a code, a runtime
panic, or normal completion. -/
inductive Outcome where
  | exit : Nat → Outcome
  | panicked : String → Outcome
  | success : Outcome
  deriving Repr, DecidableEq

/-- Observable trace of one `main` run: the outcome, every HTTP request
issued, every `Put` performed through `storeQA` (key and stored value),
the database state at the end (none if the database was never opened), and
what was printed to stdout. -/
structure MainTrace where
  outcome : Outcome
  requests : List HttpRequest
  puts : List (String × String)
  db : Option DB
  printed : Option String

/-- The bytes `main` holds after `ioutil.ReadFile(configFile)`: on a read
error the code only logs, so `file` keeps its zero value (nil). -/
def configFileBytes (env : Env) : String :=
  match env.readConfigFile with
  | .ok s => s
  | .error _ => ""

/-- The `Config` value `main` holds after `json.Unmarshal`: on an unmarshal
error the code only logs, so `config` keeps its zero value. -/
def mainConfig (env : Env) : Config :=
  match env.unmarshalConfig (configFileBytes env) with
  | .ok c => c
  | .error _ => { apiKey := "" }

/-- The `text_to_analyze` block of `main`: when the flag is set, a missing
or unreadable file is fatal (`os.Exit(1)`); when the flag is empty the text
stays nil (the empty string). -/
def readTextToAnalyze (env : Env) : Except Unit String :=
  if env.flags.file_to_analyze = "" then .ok ""
  else if env.fileToAnalyzeExists = false then .error ()
  else
    match env.readFileToAnalyze with
    | .error _ => .error ()
    | .ok s => .ok s

/-- `main` from `src/main.go`, as a trace over the environment:
flag/help gate (`flag.NFlag() == 0 || *showHelp` prints usage and exits 0),
config-dir creation, config-file existence check (exit 1 when absent),
config read and unmarshal (errors only logged, execution continues),
optional analyze-file read (errors exit 1), `bolt.Open` (errors exit 1 via
`log.Fatalf`), bucket creation (`CreateBucketIfNotExists` with the constant
non-empty name cannot fail), `getAnswer`, `storeQA`, print.  `log.Fatalf`
exits with code 1. -/
def runMain (env : Env) : MainTrace :=
  if env.flags.nflag = 0 ∨ env.flags.help = true then
    { outcome := .exit 0, requests := [], puts := [], db := none, printed := none }
  else if env.getConfigDirOk = false then
    { outcome := .exit 1, requests := [], puts := [], db := none, printed := none }
  else if env.configFileExists = false then
    { outcome := .exit 1, requests := [], puts := [], db := none, printed := none }
  else
    match readTextToAnalyze env with
    | .error _ =>
        { outcome := .exit 1, requests := [], puts := [], db := none, printed := none }
    | .ok text =>
        match env.openDB with
        | .error _ =>
            { outcome := .exit 1, requests := [], puts := [], db := none, printed := none }
        | .ok db0 =>
            let db1 := dbCreateBucketIfNotExists db0 bucketName
            match getAnswer env.net env.unmarshalResp (mainConfig env).apiKey
                env.flags.question env.flags.example_prompt env.flags.example_response text with
            | (.err _, reqs) =>
                { outcome := .exit 1, requests := reqs, puts := [], db := some db1,
                  printed := none }
            | (.panicked m, reqs) =>
                { outcome := .panicked m, requests := reqs, puts := [], db := some db1,
                  printed := none }
            | (.ok answer, reqs) =>
                match storeQA db1 env.flags.question answer with
                | .err _ =>
                    { outcome := .exit 1, requests := reqs, puts := [], db := some db1,
                      printed := none }
                | .panicked m =>
                    { outcome := .panicked m, requests := reqs, puts := [], db := some db1,
                      printed := none }
                | .ok db2 =>
                    { outcome := .success, requests := reqs,
                      puts := [(env.flags.question,
                        encodeQA { question := env.flags.question, answer := answer })],
                      db := some db2,
                      printed := some ("Answer: " ++ answer ++ "\n") }

/-! ### Lemmas about the store model -/

theorem bucketGet_bucketPut_self (b : Bucket) (k v : String) :
    bucketGet (bucketPut b k v) k = some v := by
  induction b with
  | nil => simp [bucketPut, bucketGet]
  | cons hd tl ih =>
      obtain ⟨k', v'⟩ := hd
      by_cases h : k' = k
      · simp [bucketPut, h, bucketGet]
      · simp [bucketPut, h, bucketGet, ih]

theorem bucketGet_bucketPut_ne (b : Bucket) (k v k' : String) (h : k' ≠ k) :
    bucketGet (bucketPut b k v) k' = bucketGet b k' := by
  have hkk : k ≠ k' := Ne.symm h
  induction b with
  | nil => simp [bucketPut, bucketGet, hkk]
  | cons hd tl ih =>
      obtain ⟨k₀, v₀⟩ := hd
      by_cases h0 : k₀ = k
      · subst h0
        simp [bucketPut, bucketGet, hkk]
      · simp only [bucketPut, if_neg h0, bucketGet]
        by_cases h1 : k₀ = k'
        · simp [h1]
        · simp [h1, ih]

theorem mem_keys_bucketPut (b : Bucket) (k v x : String)
    (hx : x ∈ (bucketPut b k v).map Prod.fst) :
    x ∈ b.map Prod.fst ∨ x = k := by
  induction b with
  | nil =>
      rw [show bucketPut ([] : Bucket) k v = [(k, v)] from rfl, List.map_cons,
        List.map_nil, List.mem_singleton] at hx
      exact Or.inr hx
  | cons hd tl ih =>
      obtain ⟨k₀, v₀⟩ := hd
      by_cases h0 : k₀ = k
      · rw [show bucketPut ((k₀, v₀) :: tl) k v = (k, v) :: tl from by
            simp [bucketPut, h0], List.map_cons, List.mem_cons] at hx
        rcases hx with hx | hx
        · exact Or.inr hx
        · exact Or.inl (by rw [List.map_cons, List.mem_cons]; exact Or.inr hx)
      · rw [show bucketPut ((k₀, v₀) :: tl) k v = (k₀, v₀) :: bucketPut tl k v from by
            simp [bucketPut, h0], List.map_cons, List.mem_cons] at hx
        rcases hx with hx | hx
        · exact Or.inl (by rw [List.map_cons, List.mem_cons]; exact Or.inl hx)
        · rcases ih hx with h1 | h1
          · exact Or.inl (by rw [List.map_cons, List.mem_cons]; exact Or.inr h1)
          · exact Or.inr h1

theorem nodup_keys_bucketPut (b : Bucket) (k v : String)
    (hnd : (b.map Prod.fst).Nodup) :
    ((bucketPut b k v).map Prod.fst).Nodup := by
  induction b with
  | nil =>
      rw [show bucketPut ([] : Bucket) k v = [(k, v)] from rfl]
      simp
  | cons hd tl ih =>
      obtain ⟨k₀, v₀⟩ := hd
      rw [List.map_cons, List.nodup_cons] at hnd
      by_cases h0 : k₀ = k
      · rw [show bucketPut ((k₀, v₀) :: tl) k v = (k, v) :: tl from by
            simp [bucketPut, h0], List.map_cons, List.nodup_cons]
        exact ⟨h0 ▸ hnd.1, hnd.2⟩
      · rw [show bucketPut ((k₀, v₀) :: tl) k v = (k₀, v₀) :: bucketPut tl k v from by
            simp [bucketPut, h0], List.map_cons, List.nodup_cons]
        refine ⟨?_, ih hnd.2⟩
        intro hmem
        rcases mem_keys_bucketPut tl k v k₀ hmem with h1 | h1
        · exact hnd.1 h1
        · exact h0 h1

theorem filter_key_eq_nil (b : Bucket) (k : String)
    (h : k ∉ b.map Prod.fst) :
    b.filter (fun e => decide (e.1 = k)) = [] := by
  induction b with
  | nil => rfl
  | cons hd tl ih =>
      obtain ⟨k₀, v₀⟩ := hd
      rw [List.map_cons, List.mem_cons, not_or] at h
      have hne : k₀ ≠ k := fun hh => h.1 hh.symm
      rw [List.filter_cons]
      simp [hne, ih h.2]

theorem filter_bucketPut (b : Bucket) (k v : String)
    (hnd : (b.map Prod.fst).Nodup) :
    (bucketPut b k v).filter (fun e => decide (e.1 = k)) = [(k, v)] := by
  induction b with
  | nil =>
      rw [show bucketPut ([] : Bucket) k v = [(k, v)] from rfl]
      simp
  | cons hd tl ih =>
      obtain ⟨k₀, v₀⟩ := hd
      rw [List.map_cons, List.nodup_cons] at hnd
      by_cases h0 : k₀ = k
      · rw [show bucketPut ((k₀, v₀) :: tl) k v = (k, v) :: tl from by
            simp [bucketPut, h0], List.filter_cons]
        simp [filter_key_eq_nil tl k (h0 ▸ hnd.1)]
      · rw [show bucketPut ((k₀, v₀) :: tl) k v = (k₀, v₀) :: bucketPut tl k v from by
            simp [bucketPut, h0], List.filter_cons]
        simp [h0, ih hnd.2]

theorem dbGetBucket_dbPut (db : DB) (b : Bucket) (name k v : String)
    (h : dbGetBucket db name = some b) :
    dbGetBucket (dbPut db name k v) name = some (bucketPut b k v) := by
  induction db with
  | nil => simp [dbGetBucket] at h
  | cons hd tl ih =>
      obtain ⟨n₀, b₀⟩ := hd
      by_cases h0 : n₀ = name
      · rw [show dbGetBucket ((n₀, b₀) :: tl) name = some b₀ from by
            simp [dbGetBucket, h0], Option.some.injEq] at h
        subst h
        simp [dbPut, dbGetBucket, h0]
      · rw [show dbGetBucket ((n₀, b₀) :: tl) name = dbGetBucket tl name from by
            simp [dbGetBucket, h0]] at h
        simp [dbPut, dbGetBucket, h0, ih h]

theorem storeQA_ok_get (db : DB) (b : Bucket) (q a : String)
    (hb : dbGetBucket db bucketName = some b)
    (hp : putErr q (encodeQA { question := q, answer := a }) = none) :
    storeQA db q a =
      .ok (dbPut db bucketName q (encodeQA { question := q, answer := a })) ∧
    dbGet (dbPut db bucketName q (encodeQA { question := q, answer := a }))
        bucketName q = some (encodeQA { question := q, answer := a }) := by
  constructor
  · simp [storeQA, hb, hp]
  · simp [dbGet, dbGetBucket_dbPut db b bucketName q _ hb, bucketGet_bucketPut_self]

theorem storeQA_ok_inv (db : DB) (q a : String) (db' : DB)
    (h : storeQA db q a = .ok db') :
    db' = dbPut db bucketName q (encodeQA { question := q, answer := a }) ∧
    ∃ b, dbGetBucket db bucketName = some b := by
  unfold storeQA at h
  cases hb : dbGetBucket db bucketName with
  | none =>
      rw [hb] at h
      exact absurd h (by simp)
  | some b =>
      rw [hb] at h
      cases hp : putErr q (encodeQA { question := q, answer := a }) with
      | some e =>
          rw [hp] at h
          exact absurd h (by simp)
      | none =>
          rw [hp] at h
          simp only [GoResult.ok.injEq] at h
          exact ⟨h.symm, b, rfl⟩

theorem dbGetBucket_append_self (db : DB) (name : String)
    (h : dbGetBucket db name = none) :
    dbGetBucket (db ++ [(name, [])]) name = some [] := by
  induction db with
  | nil => simp [dbGetBucket]
  | cons hd tl ih =>
      obtain ⟨n₀, b₀⟩ := hd
      by_cases h0 : n₀ = name
      · simp [dbGetBucket, h0] at h
      · simp only [dbGetBucket, if_neg h0] at h
        simp [dbGetBucket, h0, ih h]

theorem create_bucket_exists (db : DB) (name : String) :
    ∃ b, dbGetBucket (dbCreateBucketIfNotExists db name) name = some b := by
  unfold dbCreateBucketIfNotExists
  cases hx : dbGetBucket db name with
  | some b => exact ⟨b, by simp [hx]⟩
  | none => exact ⟨[], dbGetBucket_append_self db name hx⟩

theorem create_bucket_fresh (db : DB) (name : String)
    (h : dbGetBucket db name = none) :
    dbGetBucket (dbCreateBucketIfNotExists db name) name = some [] := by
  unfold dbCreateBucketIfNotExists
  rw [h]
  exact dbGetBucket_append_self db name h

/-! ### Stub environments for witnesses and counterexamples -/

/-- A stub flag set: `-question "q"` on the command line. -/
def stubFlags : Flags :=
  { help := false, question := "q", example_prompt := "", example_response := ""
    file_to_analyze := "", debug := false, nflag := 1 }

/-- A stub choice whose content carries surrounding white space. -/
def stubChoice : Choice :=
  { message := { role := "assistant", content := "  42  " }, finishReason := "stop" }

/-- A stub decoded completion response with exactly one choice. -/
def stubChatResp : ChatCompletionResponse :=
  { id := "chatcmpl-1", object := "chat.completion", model := modelID
    choices := [stubChoice] }

/-- A stub 200 response. -/
def okResp : HttpResponse :=
  { statusCode := 200, status := "200 OK", body := "stub-body" }

/-- A stub environment in which every step succeeds. -/
def baseEnv : Env :=
  { flags := stubFlags
    getConfigDirOk := true
    configFileExists := true
    readConfigFile := .ok "api-key-file-contents"
    unmarshalConfig := fun _ => .ok { apiKey := "k" }
    fileToAnalyzeExists := false
    readFileToAnalyze := .error "unused"
    openDB := .ok []
    net := fun _ => .ok okResp
    unmarshalResp := fun _ => .ok stubChatResp }

/-! ### The claims -/

/-- C1 counterexample: a blank question under a 200 response with one
choice.  `getAnswer` still returns the trimmed choice content, but
`storeQA` writes no record at all — bolt's `Put` refuses the blank key —
so no subsequently written record carries the answer. -/
theorem blank_question_drops_record_counterexample :
    (getAnswer (fun _ => .ok okResp) (fun _ => .ok stubChatResp)
        "k" "" "" "" "").fst = .ok (trimSpace "  42  ") ∧
    storeQA [(bucketName, [])] "" (trimSpace "  42  ") = .err "key required" ∧
    ¬ ∃ db', storeQA [(bucketName, [])] "" (trimSpace "  42  ") = .ok db' := by
  refine ⟨rfl, rfl, ?_⟩
  rintro ⟨db', h⟩
  rw [show storeQA [(bucketName, [])] "" (trimSpace "  42  ") =
      .err "key required" from rfl] at h
  exact GoResult.noConfusion h

/-- C1 (amended): for every API key and question, if the completion
endpoint answers with status 200 and a body that decodes to a response
with at least one choice, then `getAnswer` returns the first choice's
message content with leading and trailing white space trimmed, and —
provided bolt's `Put` accepts the question key (non-blank and within the
size limits) — the record subsequently written by `storeQA` has that
trimmed text as its answer field. -/
theorem getAnswer_trimmed_first_choice_stored
    (net : Net) (unm : RespDecoder)
    (apiKey q ep er tta : String) (resp : HttpResponse)
    (r : ChatCompletionResponse) (c : Choice) (rest : List Choice)
    (db : DB) (b : Bucket)
    (hnet : net (mkHttpRequest apiKey (buildChatRequest q ep er tta)) = .ok resp)
    (hstatus : resp.statusCode = 200)
    (hdec : unm resp.body = .ok r)
    (hchoices : r.choices = c :: rest)
    (hb : dbGetBucket db bucketName = some b)
    (hp : putErr q (encodeQA { question := q, answer := trimSpace c.message.content }) =
      none) :
    (getAnswer net unm apiKey q ep er tta).fst = .ok (trimSpace c.message.content) ∧
    ∃ db', storeQA db q (trimSpace c.message.content) = .ok db' ∧
      dbGet db' bucketName q =
        some (encodeQA { question := q, answer := trimSpace c.message.content }) := by
  constructor
  · simp [getAnswer, hnet, hstatus, hdec, hchoices]
  · obtain ⟨h1, h2⟩ := storeQA_ok_get db b q (trimSpace c.message.content) hb hp
    exact ⟨_, h1, h2⟩

/-- Witness for the amended C1 at a concrete stub response: the answer is
the trimmed content and the stored record carries it. -/
theorem getAnswer_trimmed_first_choice_stored_witness :
    (getAnswer (fun _ => .ok okResp) (fun _ => .ok stubChatResp)
        "k" "q" "" "" "").fst = .ok (trimSpace "  42  ") ∧
    ∃ db', storeQA [(bucketName, [])] "q" (trimSpace "  42  ") = .ok db' ∧
      dbGet db' bucketName "q" =
        some (encodeQA { question := "q", answer := trimSpace "  42  " }) :=
  getAnswer_trimmed_first_choice_stored (fun _ => .ok okResp)
    (fun _ => .ok stubChatResp) "k" "q" "" "" "" okResp stubChatResp stubChoice []
    [(bucketName, [])] [] rfl rfl rfl rfl rfl rfl

/-- C4 counterexample: at the blank question both writes are refused by
bolt's `Put` (`ErrKeyRequired`), so the store is left with zero records
under that key, not exactly one. -/
theorem storeQA_blank_key_counterexample :
    storeQA [(bucketName, [])] "" "a1" = .err "key required" ∧
    storeQA [(bucketName, [])] "" "a2" = .err "key required" ∧
    dbGet [(bucketName, [])] bucketName "" = none :=
  ⟨rfl, rfl, rfl⟩

/-- C4 (amended): for every question whose key bolt's `Put` accepts
(non-blank and within the size limits, for both encoded records), writing
the same question twice leaves exactly one record under that key, holding
the second answer; the second write fully overwrites the first and touches
no other key. -/
theorem storeQA_overwrite (db : DB) (b : Bucket) (q a1 a2 : String)
    (hb : dbGetBucket db bucketName = some b)
    (hnd : (b.map Prod.fst).Nodup)
    (hp1 : putErr q (encodeQA { question := q, answer := a1 }) = none)
    (hp2 : putErr q (encodeQA { question := q, answer := a2 }) = none) :
    ∃ db1 db2 b2,
      storeQA db q a1 = .ok db1 ∧
      storeQA db1 q a2 = .ok db2 ∧
      dbGetBucket db2 bucketName = some b2 ∧
      b2.filter (fun e => decide (e.1 = q)) =
        [(q, encodeQA { question := q, answer := a2 })] ∧
      (∀ k, k ≠ q → bucketGet b2 k = bucketGet b k) := by
  have hb1 : dbGetBucket (dbPut db bucketName q
      (encodeQA { question := q, answer := a1 })) bucketName =
      some (bucketPut b q (encodeQA { question := q, answer := a1 })) :=
    dbGetBucket_dbPut db b bucketName q _ hb
  refine ⟨dbPut db bucketName q (encodeQA { question := q, answer := a1 }),
    dbPut (dbPut db bucketName q (encodeQA { question := q, answer := a1 }))
      bucketName q (encodeQA { question := q, answer := a2 }),
    bucketPut (bucketPut b q (encodeQA { question := q, answer := a1 })) q
      (encodeQA { question := q, answer := a2 }),
    (storeQA_ok_get db b q a1 hb hp1).1, ?_, ?_, ?_, ?_⟩
  · simp [storeQA, hb1, hp2]
  · exact dbGetBucket_dbPut _ _ bucketName q _ hb1
  · exact filter_bucketPut _ q _ (nodup_keys_bucketPut b q _ hnd)
  · intro k hk
    rw [bucketGet_bucketPut_ne _ q _ k hk, bucketGet_bucketPut_ne _ q _ k hk]

/-- Witness for the amended C4 on a freshly created bucket. -/
theorem storeQA_overwrite_witness :
    ∃ db1 db2 b2,
      storeQA [(bucketName, [])] "q" "a1" = .ok db1 ∧
      storeQA db1 "q" "a2" = .ok db2 ∧
      dbGetBucket db2 bucketName = some b2 ∧
      b2.filter (fun e => decide (e.1 = "q")) =
        [("q", encodeQA { question := "q", answer := "a2" })] ∧
      (∀ k, k ≠ "q" → bucketGet b2 k = bucketGet [] k) :=
  storeQA_overwrite [(bucketName, [])] [] "q" "a1" "a2" rfl (by simp) rfl rfl

/-- C6: a successful `storeQA` has stored, in the named bucket, under the
key equal to the question string, the JSON serialization of the record. -/
theorem storeQA_stores_json (db : DB) (q a : String) (db' : DB)
    (h : storeQA db q a = .ok db') :
    dbGet db' bucketName q = some (encodeQA { question := q, answer := a }) := by
  obtain ⟨hdb', b, hb⟩ := storeQA_ok_inv db q a db' h
  subst hdb'
  simp [dbGet, dbGetBucket_dbPut db b bucketName q _ hb, bucketGet_bucketPut_self]

/-- Witness for C6: a concrete successful store yields the concrete JSON
record under the question key. -/
theorem storeQA_stores_json_witness :
    dbGet (dbPut [(bucketName, [])] bucketName "why?"
        (encodeQA { question := "why?", answer := "because" })) bucketName "why?" =
      some (encodeQA { question := "why?", answer := "because" }) :=
  storeQA_stores_json [(bucketName, [])] "why?" "because"
    (dbPut [(bucketName, [])] bucketName "why?"
      (encodeQA { question := "why?", answer := "because" })) rfl

/-- C7: `getAnswer` issues exactly one HTTP POST, to the fixed endpoint
URL, carrying `Authorization: Bearer <key>`, with a request whose model
field is the fixed model identifier and whose temperature field is the
fixed default temperature. -/
theorem getAnswer_single_post (net : Net) (unm : RespDecoder)
    (apiKey q ep er tta : String) :
    (getAnswer net unm apiKey q ep er tta).snd =
      [mkHttpRequest apiKey (buildChatRequest q ep er tta)] ∧
    (mkHttpRequest apiKey (buildChatRequest q ep er tta)).method = "POST" ∧
    (mkHttpRequest apiKey (buildChatRequest q ep er tta)).url = openAIURL ∧
    (mkHttpRequest apiKey (buildChatRequest q ep er tta)).headers =
      [("Content-Type", "application/json"), ("Authorization", "Bearer " ++ apiKey)] ∧
    (mkHttpRequest apiKey (buildChatRequest q ep er tta)).body.model = modelID ∧
    (mkHttpRequest apiKey (buildChatRequest q ep er tta)).body.temperature =
      defaultTemperature := by
  refine ⟨?_, rfl, rfl, rfl, rfl, rfl⟩
  simp only [getAnswer]
  rcases net (mkHttpRequest apiKey (buildChatRequest q ep er tta)) with e | resp
  · rfl
  · dsimp only
    by_cases hs : resp.statusCode ≠ 200
    · simp [hs]
    · rw [if_neg hs]
      rcases unm resp.body with e | r
      · rfl
      · dsimp only
        rcases r.choices with _ | ⟨c, rest⟩ <;> rfl

/-- C9: when the endpoint answers 200 and the body decodes successfully to
a response with zero choices, `getAnswer` does not return an error value:
the unguarded index into the choices list panics. -/
theorem getAnswer_zero_choices_panics (net : Net) (unm : RespDecoder)
    (apiKey q ep er tta : String) (resp : HttpResponse)
    (r : ChatCompletionResponse)
    (hnet : net (mkHttpRequest apiKey (buildChatRequest q ep er tta)) = .ok resp)
    (hstatus : resp.statusCode = 200)
    (hdec : unm resp.body = .ok r)
    (hzero : r.choices = []) :
    (getAnswer net unm apiKey q ep er tta).fst =
      .panicked "runtime error: index out of range [0] with length 0" := by
  simp [getAnswer, hnet, hstatus, hdec, hzero]

/-- Witness for C9 at a concrete 200 response decoding to zero choices. -/
theorem getAnswer_zero_choices_panics_witness :
    (getAnswer (fun _ => .ok okResp)
        (fun _ => .ok { id := "chatcmpl-2", object := "chat.completion"
                        model := modelID, choices := [] })
        "k" "q" "" "" "").fst =
      .panicked "runtime error: index out of range [0] with length 0" :=
  getAnswer_zero_choices_panics (fun _ => .ok okResp)
    (fun _ => .ok { id := "chatcmpl-2", object := "chat.completion"
                    model := modelID, choices := [] })
    "k" "q" "" "" "" okResp
    { id := "chatcmpl-2", object := "chat.completion", model := modelID, choices := [] }
    rfl rfl rfl rfl

/-- Unfolding lemma: once the flag gate, config-dir creation, config-file
existence check, analyze-file read and database open have all passed,
`runMain` is determined by the `getAnswer` and `storeQA` results. -/
theorem runMain_reaches (env : Env) (text : String) (db0 : DB)
    (h1 : ¬(env.flags.nflag = 0 ∨ env.flags.help = true))
    (h2 : env.getConfigDirOk = true)
    (h3 : env.configFileExists = true)
    (h4 : readTextToAnalyze env = .ok text)
    (h5 : env.openDB = .ok db0) :
    runMain env =
      match getAnswer env.net env.unmarshalResp (mainConfig env).apiKey
          env.flags.question env.flags.example_prompt env.flags.example_response text with
      | (.err _, reqs) =>
          { outcome := .exit 1, requests := reqs, puts := [],
            db := some (dbCreateBucketIfNotExists db0 bucketName), printed := none }
      | (.panicked m, reqs) =>
          { outcome := .panicked m, requests := reqs, puts := [],
            db := some (dbCreateBucketIfNotExists db0 bucketName), printed := none }
      | (.ok answer, reqs) =>
          match storeQA (dbCreateBucketIfNotExists db0 bucketName)
              env.flags.question answer with
          | .err _ =>
              { outcome := .exit 1, requests := reqs, puts := [],
                db := some (dbCreateBucketIfNotExists db0 bucketName), printed := none }
          | .panicked m =>
              { outcome := .panicked m, requests := reqs, puts := [],
                db := some (dbCreateBucketIfNotExists db0 bucketName), printed := none }
          | .ok db2 =>
              { outcome := .success, requests := reqs,
                puts := [(env.flags.question,
                  encodeQA { question := env.flags.question, answer := answer })],
                db := some db2,
                printed := some ("Answer: " ++ answer ++ "\n") } := by
  simp only [runMain, if_neg h1]
  rw [if_neg (by simp [h2]), if_neg (by simp [h3]), h4]
  dsimp only
  rw [h5]

/-! ### Further concrete environments -/

/-- Failing input for C2: `-question "q"`, config file present but
unreadable; `json.Unmarshal` of the resulting nil bytes fails too, and the
endpoint then answers 200 with a valid one-choice body. -/
def envConfigReadError : Env :=
  { baseEnv with
    readConfigFile := .error "permission denied"
    unmarshalConfig := fun _ => .error "unexpected end of JSON input" }

/-- A 404 response from the completion endpoint. -/
def respNon200 : HttpResponse :=
  { statusCode := 404, status := "404 Not Found", body := "" }

/-- Environment in which the endpoint answers 404. -/
def envNon200 : Env := { baseEnv with net := fun _ => .ok respNon200 }

/-- Environment with a missing config file (and `-question "q"` set). -/
def envMissingConfig : Env := { baseEnv with configFileExists := false }

/-- Environment with no flags at all on the command line and a missing
config file. -/
def envNoFlagsNoConfig : Env :=
  { baseEnv with
    flags := { stubFlags with question := "", nflag := 0 }
    configFileExists := false }

/-- Environment with no flags at all on the command line. -/
def envNoFlags : Env :=
  { baseEnv with flags := { stubFlags with question := "", nflag := 0 } }

/-- Environment for the invocation `gogpt -debug`: one flag set, question
empty, everything else succeeding. -/
def envDebugOnly : Env :=
  { baseEnv with flags := { stubFlags with question := "", debug := true } }

/-- C2 (code bug): with the config file present but unreadable, `main`
only logs the read and unmarshal errors and continues: the completion call
is made with the zero-value API key and the run can even finish with
status 0, instead of exiting non-zero before the completion call. -/
theorem config_read_error_swallowed :
    (runMain envConfigReadError).requests ≠ [] ∧
    (runMain envConfigReadError).outcome = .success := by
  refine ⟨?_, rfl⟩
  have hreq : (runMain envConfigReadError).requests =
      [mkHttpRequest "" (buildChatRequest "q" "" "" "")] := rfl
  rw [hreq]
  simp

/-- C3: a non-200 answer from the completion endpoint means `getAnswer`
returns an error (not a panic), no record is written to the store, and
the process exits with status 1. -/
theorem non200_no_put_exit1 (env : Env) (text : String) (db0 : DB)
    (resp : HttpResponse)
    (h1 : ¬(env.flags.nflag = 0 ∨ env.flags.help = true))
    (h2 : env.getConfigDirOk = true)
    (h3 : env.configFileExists = true)
    (h4 : readTextToAnalyze env = .ok text)
    (h5 : env.openDB = .ok db0)
    (hnet : env.net (mkHttpRequest (mainConfig env).apiKey
      (buildChatRequest env.flags.question env.flags.example_prompt
        env.flags.example_response text)) = .ok resp)
    (hstatus : resp.statusCode ≠ 200) :
    (runMain env).outcome = .exit 1 ∧
    (runMain env).puts = [] ∧
    (getAnswer env.net env.unmarshalResp (mainConfig env).apiKey
      env.flags.question env.flags.example_prompt env.flags.example_response
      text).fst =
      .err ("OpenAI API request failed with status: " ++ resp.status) := by
  have hga : getAnswer env.net env.unmarshalResp (mainConfig env).apiKey
      env.flags.question env.flags.example_prompt env.flags.example_response text =
      (.err ("OpenAI API request failed with status: " ++ resp.status),
       [mkHttpRequest (mainConfig env).apiKey (buildChatRequest env.flags.question
         env.flags.example_prompt env.flags.example_response text)]) := by
    simp [getAnswer, hnet, hstatus]
  have hrm := runMain_reaches env text db0 h1 h2 h3 h4 h5
  rw [hga] at hrm
  exact ⟨by rw [hrm], by rw [hrm], by rw [hga]⟩

/-- Witness for C3: with a stub 404 endpoint the run exits 1, writes
nothing, and `getAnswer` returned the status error. -/
theorem non200_no_put_exit1_witness :
    (runMain envNon200).outcome = .exit 1 ∧
    (runMain envNon200).puts = [] ∧
    (getAnswer envNon200.net envNon200.unmarshalResp (mainConfig envNon200).apiKey
      envNon200.flags.question envNon200.flags.example_prompt
      envNon200.flags.example_response "").fst =
      .err ("OpenAI API request failed with status: " ++ respNon200.status) :=
  non200_no_put_exit1 envNon200 "" [] respNon200 (by decide) rfl rfl rfl rfl rfl
    (by decide)

/-- C5 counterexample: an invocation with no flags at all and a missing
config file exits with status 0 (the usage path), so the claim's
"exits with a non-zero status" fails for this invocation. -/
theorem missing_config_zero_exit_counterexample :
    (runMain envNoFlagsNoConfig).outcome = .exit 0 ∧
    (runMain envNoFlagsNoConfig).requests = [] :=
  ⟨rfl, rfl⟩

/-- C5 (amended): for every invocation that passes the flag/usage gate
(at least one flag set and not `-help`), a missing config file means no
network call and exit status 1. -/
theorem missing_config_no_network_exit1 (env : Env)
    (h1 : ¬(env.flags.nflag = 0 ∨ env.flags.help = true))
    (h3 : env.configFileExists = false) :
    (runMain env).requests = [] ∧ (runMain env).outcome = .exit 1 := by
  by_cases h2 : env.getConfigDirOk = false
  · have hrm : runMain env =
        { outcome := .exit 1, requests := [], puts := [], db := none,
          printed := none } := by
      simp only [runMain, if_neg h1]
      rw [if_pos h2]
    rw [hrm]
    exact ⟨rfl, rfl⟩
  · have hrm : runMain env =
        { outcome := .exit 1, requests := [], puts := [], db := none,
          printed := none } := by
      simp only [runMain, if_neg h1]
      rw [if_neg h2, if_pos h3]
    rw [hrm]
    exact ⟨rfl, rfl⟩

/-- Witness for the amended C5: `-question "q"` with a missing config file
gives no request and exit 1. -/
theorem missing_config_no_network_exit1_witness :
    (runMain envMissingConfig).requests = [] ∧
    (runMain envMissingConfig).outcome = .exit 1 :=
  missing_config_no_network_exit1 envMissingConfig (by decide) rfl

/-- C8 counterexample: the invocation `gogpt -debug` sets one flag and
leaves `-question` empty, yet the run performs the completion call,
refuting "rejects before orchestration: no completion call".  The store
write is then attempted but bolt refuses the blank key, so the run ends
with exit status 1 and nothing stored. -/
theorem empty_question_proceeds_counterexample :
    (runMain envDebugOnly).requests ≠ [] ∧
    (runMain envDebugOnly).outcome = .exit 1 ∧
    (runMain envDebugOnly).puts = [] := by
  refine ⟨?_, rfl, rfl⟩
  decide

/-- C8 (amended): the CLI rejects an invocation before any orchestration
only when no flags at all are set or `-help` is given; it then prints the
usage and exits 0 with no completion call and no store write.  An
invocation that sets some flag but leaves `-question` empty is not
rejected: it proceeds to the completion call, after which the store write
of the blank question key is refused by bolt and the process exits 1. -/
theorem usage_gate_rejects (env : Env)
    (h : env.flags.nflag = 0 ∨ env.flags.help = true) :
    (runMain env).outcome = .exit 0 ∧ (runMain env).requests = [] ∧
    (runMain env).puts = [] := by
  have hrm : runMain env =
      { outcome := .exit 0, requests := [], puts := [], db := none,
        printed := none } := by
    simp only [runMain, if_pos h]
  rw [hrm]
  exact ⟨rfl, rfl, rfl⟩

/-- Witness for the amended C8: a zero-flag invocation is rejected with
exit 0 and no effects. -/
theorem usage_gate_rejects_witness :
    (runMain envNoFlags).outcome = .exit 0 ∧ (runMain envNoFlags).requests = [] ∧
    (runMain envNoFlags).puts = [] :=
  usage_gate_rejects envNoFlags (Or.inl rfl)

/-- C10: every run that reaches the completion call has already opened the
database and created the bucket: the open succeeded, the named bucket
exists afterwards (an empty one when the database was fresh), and whenever
no record is put the final database state is exactly the bucket-creation
result — bucket creation is the only store modification before
`storeQA`. -/
theorem bucket_created_before_call (env : Env)
    (h : (runMain env).requests ≠ []) :
    ∃ db0, env.openDB = .ok db0 ∧
      (∃ b, dbGetBucket (dbCreateBucketIfNotExists db0 bucketName) bucketName =
        some b) ∧
      (dbGetBucket db0 bucketName = none →
        dbGetBucket (dbCreateBucketIfNotExists db0 bucketName) bucketName =
          some []) ∧
      ((runMain env).puts = [] →
        (runMain env).db = some (dbCreateBucketIfNotExists db0 bucketName)) := by
  by_cases h1 : env.flags.nflag = 0 ∨ env.flags.help = true
  · exact absurd (by simp [runMain, h1]) h
  by_cases h2 : env.getConfigDirOk = false
  · exact absurd (by simp [runMain, h1, h2]) h
  have h2' : env.getConfigDirOk = true := by simpa using h2
  by_cases h3 : env.configFileExists = false
  · exact absurd (by simp only [runMain, if_neg h1, if_neg h2, if_pos h3]) h
  have h3' : env.configFileExists = true := by simpa using h3
  cases h4 : readTextToAnalyze env with
  | error e =>
      exact absurd (by simp only [runMain, if_neg h1, if_neg h2, if_neg h3, h4]) h
  | ok text =>
      cases h5 : env.openDB with
      | error e =>
          refine absurd ?_ h
          simp only [runMain, if_neg h1, if_neg h2, if_neg h3, h4]
          rw [h5]
      | ok db0 =>
          refine ⟨db0, rfl, create_bucket_exists db0 bucketName,
            create_bucket_fresh db0 bucketName, ?_⟩
          have hrm := runMain_reaches env text db0 h1 h2' h3' h4 h5
          rcases hga : getAnswer env.net env.unmarshalResp (mainConfig env).apiKey
              env.flags.question env.flags.example_prompt env.flags.example_response
              text with ⟨res, reqs⟩
          rw [hga] at hrm
          cases res with
          | err e =>
              rw [hrm]
              intro _
              rfl
          | panicked m =>
              rw [hrm]
              intro _
              rfl
          | ok answer =>
              dsimp only at hrm
              cases hsq : storeQA (dbCreateBucketIfNotExists db0 bucketName)
                  env.flags.question answer with
              | err e =>
                  rw [hsq] at hrm
                  rw [hrm]
                  intro _
                  rfl
              | panicked m =>
                  rw [hsq] at hrm
                  rw [hrm]
                  intro _
                  rfl
              | ok db2 =>
                  rw [hsq] at hrm
                  rw [hrm]
                  intro hp
                  simp at hp

/-- Witness for C10 at the all-success stub environment, which reaches the
completion call. -/
theorem bucket_created_before_call_witness :
    ∃ db0, baseEnv.openDB = .ok db0 ∧
      (∃ b, dbGetBucket (dbCreateBucketIfNotExists db0 bucketName) bucketName =
        some b) ∧
      (dbGetBucket db0 bucketName = none →
        dbGetBucket (dbCreateBucketIfNotExists db0 bucketName) bucketName =
          some []) ∧
      ((runMain baseEnv).puts = [] →
        (runMain baseEnv).db = some (dbCreateBucketIfNotExists db0 bucketName)) :=
  bucket_created_before_call baseEnv (by decide)

end GoGpt
